import Mathlib

/-!
Verification of the Nebraska event registration core
(`backend/pkg/api/events.go`): event validation, the instance state
machine driven by event consequences, the rollout policy decisions, and
the latest-event query. The durable stores (instances, groups, events,
activities) and the derived rollout statistics are modelled as explicit
state; collaborator failures are modelled by fault flags so that the
error-swallowing policy of the code can be stated and proved.
-/

namespace Nebraska

/-- `EventUpdateComplete` from events.go: the update process completed. -/
def EventUpdateComplete : Nat := 3

/-- `EventUpdateDownloadStarted` from events.go. -/
def EventUpdateDownloadStarted : Nat := 13

/-- `EventUpdateDownloadFinished` from events.go. -/
def EventUpdateDownloadFinished : Nat := 14

/-- `EventUpdateInstalled` from events.go. -/
def EventUpdateInstalled : Nat := 800

/-- `ResultFailed` from events.go. -/
def ResultFailed : Nat := 0

/-- `ResultSuccess` from events.go. -/
def ResultSuccess : Nat := 1

/-- `ResultSuccessReboot` from events.go. -/
def ResultSuccessReboot : Nat := 2

/-- The error taxonomy of events.go (`ErrInvalidInstance`, ...,
`ErrFlatcarEventIgnored`). -/
inductive RegError where
  | invalidInstance
  | invalidApplicationOrGroup
  | invalidEventTypeOrResult
  | eventRegistrationFailed
  | noUpdateInProgress
  | flatcarEventIgnored
deriving DecidableEq, Repr

/-- Instance update statuses (`InstanceStatusUndefined`, ...,
`InstanceStatusError`); defined outside the provided sources, the
enumeration is taken from spec §4.2. -/
inductive InstanceStatus where
  | undefined
  | downloading
  | downloaded
  | installed
  | complete
  | error
deriving DecidableEq, Repr

/-- The per-instance application binding (`instance.Application` in
events.go): application id, the update-in-progress flag, and the last
granted update version. -/
structure InstanceApplication where
  applicationID : String
  updateInProgress : Bool
  lastUpdateVersion : String
  status : InstanceStatus
deriving DecidableEq, Repr

/-- An instance record as visible to RegisterEvent. -/
structure Instance where
  id : String
  application : InstanceApplication
deriving DecidableEq, Repr

/-- A group: rollout unit with the `RolloutInProgress` flag and the
updates-enabled policy flag (spec §3). -/
structure Group where
  id : String
  applicationID : String
  rolloutInProgress : Bool
  policyUpdatesEnabled : Bool
deriving DecidableEq, Repr

/-- Derived rollout statistics (`getGroupUpdatesStats` result). -/
structure UpdatesStats where
  totalInstances : Nat
  updatesToCurrentVersionAttempted : Nat
  updatesToCurrentVersionSucceeded : Nat
deriving DecidableEq, Repr

/-- A durably recorded event row, as inserted by RegisterEvent
(`event_type_id, instance_id, application_id, previous_version,
error_code` plus the DB-assigned creation timestamp). -/
structure EventRow where
  eventTypeID : Nat
  instanceID : String
  applicationID : String
  previousVersion : String
  errorCode : String
  createdTs : Nat
deriving DecidableEq, Repr

/-- Activity entry kinds used by triggerEventConsequences
(`activityRolloutFinished`, `activityRolloutFailed`,
`activityInstanceUpdateFailed`). -/
inductive ActivityClass where
  | rolloutFinished
  | rolloutFailed
  | instanceUpdateFailed
deriving DecidableEq, Repr

/-- Activity severities (`activitySuccess`, `activityError`). -/
inductive ActivitySeverity where
  | success
  | error
deriving DecidableEq, Repr

/-- An activity audit entry (group entries carry no instance id). -/
structure Activity where
  cls : ActivityClass
  severity : ActivitySeverity
  version : String
  applicationID : String
  groupID : String
  instanceID : Option String
deriving DecidableEq, Repr

/-- Fault flags for the durable-store collaborators: each flag makes the
corresponding store operation return an error, so the propagation and
error-swallowing policy of events.go can be stated over all failure
combinations. -/
structure Faults where
  statusUpdateFails : Bool
  insertEventFails : Bool
  groupLookupFails : Bool
  statsFails : Bool
  setRolloutFails : Bool
  groupActivityFails : Bool
  instanceActivityFails : Bool
  disableUpdatesFails : Bool
deriving DecidableEq, Repr

/-- The all-operations-succeed fault assignment. -/
def noFaults : Faults :=
  ⟨false, false, false, false, false, false, false, false⟩

/-- The full durable state visible to the event core: instance, group,
event and activity stores, the `event_type` lookup table (rows
`(type, result, id)`), the stats snapshot per group id, the clock used
for inserted rows, the automatic-halt configuration flag of the API, and
the collaborator fault flags. -/
structure State where
  instances : List Instance
  groups : List Group
  eventTypes : List (Nat × Nat × Nat)
  events : List EventRow
  activities : List Activity
  statsTable : List (String × UpdatesStats)
  now : Nat
  disableUpdatesOnFailedRollout : Bool
  faults : Faults
deriving DecidableEq, Repr

/-- Modelled from the spec: the designated reboot-based application
identifier (`flatcarAppID`, defined outside the provided sources); the
concrete value is immaterial, only its comparisons matter. -/
def flatcarAppID : String := "e96281a6-d1af-4bde-9a0a-97b76e56dc57"

/-- Modelled from the spec: `validateApplicationAndGroup` (§4.1, §6
`ResolveApplicationAndGroup`): resolves and cross-checks that the group
belongs to the application, failing with `ErrInvalidApplicationOrGroup`
otherwise; the implementation is outside the provided sources. -/
def validateApplicationAndGroup (s : State) (appID groupID : String) :
    Except RegError (String × String) :=
  match s.groups.find? (fun g => g.id == groupID && g.applicationID == appID) with
  | some _ => .ok (appID, groupID)
  | none => .error .invalidApplicationOrGroup

/-- Modelled from the spec: `GetInstance` (§6): durable lookup of the
instance record with its application binding; unknown instances are a
not-found error (surfaced by RegisterEvent as `ErrInvalidInstance`). The
binding cross-check against the resolved application id is done by the
caller (events.go line 98). -/
def getInstance (s : State) (instanceID : String) : Except RegError Instance :=
  match s.instances.find? (fun i => i.id == instanceID) with
  | some i => .ok i
  | none => .error .invalidInstance

/-- Pure effect of a status write: sets the status of the instance bound
to `(instanceID, appID)`. -/
def setInstanceStatus (instances : List Instance) (instanceID appID : String)
    (st : InstanceStatus) : List Instance :=
  instances.map (fun i =>
    if i.id == instanceID && i.application.applicationID == appID then
      { i with application := { i.application with status := st } }
    else i)

/-- Collaborator `updateInstanceStatus` (§6): durable write of the
instance status; may fail (fault flag). -/
def updateInstanceStatus (s : State) (instanceID appID : String)
    (st : InstanceStatus) : Except Unit State :=
  if s.faults.statusUpdateFails then .error ()
  else .ok { s with instances := setInstanceStatus s.instances instanceID appID st }

/-- events.go logs and swallows `updateInstanceStatus` errors; the state
is left as-is when the write fails. -/
def tryUpdateStatus (s : State) (instanceID appID : String)
    (st : InstanceStatus) : State :=
  match updateInstanceStatus s instanceID appID st with
  | .ok s1 => s1
  | .error _ => s

/-- Pure effect of `setGroupRolloutInProgress`. -/
def setRolloutFlag (groups : List Group) (groupID : String) (b : Bool) :
    List Group :=
  groups.map (fun g => if g.id == groupID then { g with rolloutInProgress := b } else g)

/-- Collaborator `setGroupRolloutInProgress` (§6); may fail. -/
def setGroupRolloutInProgress (s : State) (groupID : String) (b : Bool) :
    Except Unit State :=
  if s.faults.setRolloutFails then .error ()
  else .ok { s with groups := setRolloutFlag s.groups groupID b }

/-- events.go logs and swallows `setGroupRolloutInProgress` errors. -/
def trySetRolloutInProgress (s : State) (groupID : String) (b : Bool) : State :=
  match setGroupRolloutInProgress s groupID b with
  | .ok s1 => s1
  | .error _ => s

/-- Pure effect of `disableUpdates`. -/
def disableGroupUpdates (groups : List Group) (groupID : String) : List Group :=
  groups.map (fun g => if g.id == groupID then { g with policyUpdatesEnabled := false } else g)

/-- Collaborator `disableUpdates` (§6); may fail. -/
def disableUpdates (s : State) (groupID : String) : Except Unit State :=
  if s.faults.disableUpdatesFails then .error ()
  else .ok { s with groups := disableGroupUpdates s.groups groupID }

/-- events.go logs and swallows `disableUpdates` errors. -/
def tryDisableUpdates (s : State) (groupID : String) : State :=
  match disableUpdates s groupID with
  | .ok s1 => s1
  | .error _ => s

/-- Collaborator `newGroupActivityEntry` (§6 `AppendGroupActivity`). -/
def newGroupActivityEntry (s : State) (cls : ActivityClass)
    (sev : ActivitySeverity) (version appID groupID : String) :
    Except Unit State :=
  if s.faults.groupActivityFails then .error ()
  else .ok { s with activities := s.activities ++ [⟨cls, sev, version, appID, groupID, none⟩] }

/-- events.go logs and swallows group-activity errors. -/
def tryGroupActivity (s : State) (cls : ActivityClass)
    (sev : ActivitySeverity) (version appID groupID : String) : State :=
  match newGroupActivityEntry s cls sev version appID groupID with
  | .ok s1 => s1
  | .error _ => s

/-- Collaborator `newInstanceActivityEntry` (§6 `AppendInstanceActivity`). -/
def newInstanceActivityEntry (s : State) (cls : ActivityClass)
    (sev : ActivitySeverity) (version appID groupID instanceID : String) :
    Except Unit State :=
  if s.faults.instanceActivityFails then .error ()
  else .ok { s with activities := s.activities ++ [⟨cls, sev, version, appID, groupID, some instanceID⟩] }

/-- events.go logs and swallows instance-activity errors. -/
def tryInstanceActivity (s : State) (cls : ActivityClass)
    (sev : ActivitySeverity) (version appID groupID instanceID : String) : State :=
  match newInstanceActivityEntry s cls sev version appID groupID instanceID with
  | .ok s1 => s1
  | .error _ => s

/-- Collaborator `GetGroup` (§6): durable group lookup; errors propagate
out of triggerEventConsequences. -/
def getGroup (s : State) (groupID : String) : Except Unit Group :=
  if s.faults.groupLookupFails then .error ()
  else
    match s.groups.find? (fun g => g.id == groupID) with
    | some g => .ok g
    | none => .error ()

/-- Collaborator `getGroupUpdatesStats` (§4.3 RolloutStatsAggregator): a
pure read of the derived stats snapshot for the group; errors propagate
out of triggerEventConsequences. -/
def getGroupUpdatesStats (s : State) (g : Group) : Except Unit UpdatesStats :=
  if s.faults.statsFails then .error ()
  else
    match s.statsTable.find? (fun p => p.1 == g.id) with
    | some p => .ok p.2
    | none => .error ()

/-- Condition of the update-complete success branch (events.go line 169):
plain ResultSuccess is allowed only if the app is not Flatcar. -/
def updateCompleteSuccessCond (appID : String) (etype result : Nat) : Bool :=
  etype == EventUpdateComplete &&
    (result == ResultSuccessReboot || (appID != flatcarAppID && result == ResultSuccess))

/-- Condition of the download-started branch (events.go line 188). -/
def downloadStartedCond (etype result : Nat) : Bool :=
  etype == EventUpdateDownloadStarted && result == ResultSuccess

/-- Condition of the download-finished branch (events.go line 194). -/
def downloadFinishedCond (etype result : Nat) : Bool :=
  etype == EventUpdateDownloadFinished && result == ResultSuccess

/-- Condition of the installed branch (events.go line 200). -/
def installedCond (etype result : Nat) : Bool :=
  etype == EventUpdateInstalled && result == ResultSuccess

/-- Condition of the failure branch (events.go line 206). -/
def failedCond (result : Nat) : Bool :=
  result == ResultFailed

/-- The five branch conditions of triggerEventConsequences that write the
instance status, in source order. -/
def statusBranchConds (appID : String) (etype result : Nat) : List Bool :=
  [updateCompleteSuccessCond appID etype result,
   downloadStartedCond etype result,
   downloadFinishedCond etype result,
   installedCond etype result,
   failedCond result]

/-- The update-complete success branch of triggerEventConsequences
(events.go lines 169-186): set the instance to Complete (best effort),
recompute stats (errors propagate), and on convergence
(`succeeded == total`) clear the rollout flag and append the
rollout-finished activity entry (both best effort). -/
def completeSuccessStep (s : State) (group : Group)
    (instanceID appID groupID lastUpdateVersion : String) :
    State × Except Unit Unit :=
  let s1 := tryUpdateStatus s instanceID appID .complete
  match getGroupUpdatesStats s1 group with
  | .error e => (s1, .error e)
  | .ok stats =>
    if stats.updatesToCurrentVersionSucceeded == stats.totalInstances then
      let s2 := trySetRolloutInProgress s1 groupID false
      let s3 := tryGroupActivity s2 .rolloutFinished .success lastUpdateVersion appID groupID
      (s3, .ok ())
    else (s1, .ok ())

/-- The failure branch of triggerEventConsequences (events.go lines
206-231): set the instance to Error and append the instance-failed
activity entry (best effort); when automatic halt is configured,
recompute stats (errors propagate) and, exactly when the number of
attempted instances is 1, disable updates, clear the rollout flag and
append the rollout-failed activity entry (best effort). -/
def failedStep (s : State) (group : Group)
    (instanceID appID groupID lastUpdateVersion : String) :
    State × Except Unit Unit :=
  let s1 := tryUpdateStatus s instanceID appID .error
  let s2 := tryInstanceActivity s1 .instanceUpdateFailed .error lastUpdateVersion appID groupID instanceID
  if s2.disableUpdatesOnFailedRollout then
    match getGroupUpdatesStats s2 group with
    | .error e => (s2, .error e)
    | .ok stats =>
      if stats.updatesToCurrentVersionAttempted == 1 then
        let s3 := tryDisableUpdates s2 groupID
        let s4 := trySetRolloutInProgress s3 groupID false
        let s5 := tryGroupActivity s4 .rolloutFailed .error lastUpdateVersion appID groupID
        (s5, .ok ())
      else (s2, .ok ())
  else (s2, .ok ())

/-- `triggerEventConsequences` from events.go: look the group up (errors
propagate), then run the five independent branches in source order; a
stats error inside a branch returns immediately with the state mutated so
far. -/
def triggerEventConsequences (s : State)
    (instanceID appID groupID lastUpdateVersion : String)
    (etype result : Nat) : State × Except Unit Unit :=
  match getGroup s groupID with
  | .error e => (s, .error e)
  | .ok group =>
    let step1 :=
      if updateCompleteSuccessCond appID etype result then
        completeSuccessStep s group instanceID appID groupID lastUpdateVersion
      else (s, .ok ())
    match step1 with
    | (s1, .error e) => (s1, .error e)
    | (s1, .ok _) =>
      let s2 := if downloadStartedCond etype result then
        tryUpdateStatus s1 instanceID appID .downloading else s1
      let s3 := if downloadFinishedCond etype result then
        tryUpdateStatus s2 instanceID appID .downloaded else s2
      let s4 := if installedCond etype result then
        tryUpdateStatus s3 instanceID appID .installed else s3
      if failedCond result then
        failedStep s4 group instanceID appID groupID lastUpdateVersion
      else (s4, .ok ())

/-- The `event_type` table lookup of RegisterEvent (events.go lines
124-135): resolve the `(type, result)` pair to the internal event type
id; any lookup failure surfaces as `ErrInvalidEventTypeOrResult`. -/
def lookupEventTypeID (s : State) (etype eresult : Nat) : Except RegError Nat :=
  match s.eventTypes.find? (fun t => t.1 == etype && t.2.1 == eresult) with
  | some t => .ok t.2.2
  | none => .error .invalidEventTypeOrResult

/-- `RegisterEvent` from events.go: validate application/group, resolve
the instance, cross-check the binding, require an update in progress,
special-case the stale Flatcar reboot completion, classify the
`(type, result)` pair, durably insert the event row, and finally trigger
the consequences, whose error is logged and swallowed. -/
def RegisterEvent (s : State) (instanceID appID groupID : String)
    (etype eresult : Nat) (previousVersion errorCode : String) :
    State × Except RegError Unit :=
  match validateApplicationAndGroup s appID groupID with
  | .error e => (s, .error e)
  | .ok (appID, groupID) =>
    match getInstance s instanceID with
    | .error e => (s, .error e)
    | .ok inst =>
      if inst.application.applicationID != appID then
        (s, .error .invalidApplicationOrGroup)
      else if !inst.application.updateInProgress then
        (s, .error .noUpdateInProgress)
      else if appID == flatcarAppID && etype == EventUpdateComplete &&
          eresult == ResultSuccessReboot &&
          (previousVersion == "" || previousVersion == "0.0.0.0") then
        let s1 := tryUpdateStatus s instanceID appID .undefined
        (s1, .error .flatcarEventIgnored)
      else
        match lookupEventTypeID s etype eresult with
        | .error e => (s, .error e)
        | .ok eventTypeID =>
          if s.faults.insertEventFails then (s, .error .eventRegistrationFailed)
          else
            let row : EventRow :=
              ⟨eventTypeID, instanceID, appID, previousVersion, errorCode, s.now⟩
            let s1 := { s with events := s.events ++ [row] }
            let s2 := (triggerEventConsequences s1 instanceID appID groupID
              inst.application.lastUpdateVersion etype eresult).1
            (s2, .ok ())

/-- The WHERE clause of GetEvent (events.go lines 239-241): same
instance, same application, created at or before the timestamp. -/
def matchesQuery (instanceID appID : String) (timestamp : Nat)
    (e : EventRow) : Bool :=
  e.instanceID == instanceID && e.applicationID == appID &&
    decide (e.createdTs ≤ timestamp)

/-- One step of ORDER BY created_ts DESC LIMIT 1: keep the row with the
greater creation timestamp. -/
def betterEvent (acc : Option EventRow) (e : EventRow) : Option EventRow :=
  match acc with
  | none => some e
  | some b => if b.createdTs < e.createdTs then some e else some b

/-- ORDER BY created_ts DESC LIMIT 1 over a row list. -/
def latestEvent (l : List EventRow) : Option EventRow :=
  l.foldl betterEvent none

/-- `GetEvent` from events.go: return the error code of the most recent
event for the instance/application created at or before the timestamp;
an empty result set is an error (the row scan fails). -/
def GetEvent (s : State) (instanceID appID : String) (timestamp : Nat) :
    Except Unit String :=
  match latestEvent (s.events.filter (matchesQuery instanceID appID timestamp)) with
  | some e => .ok e.errorCode
  | none => .error ()

/-! ### Shared concrete states for witnesses -/

/-- A small non-Flatcar deployment: one instance `i1` bound to
application `app1` in group `g1`, a populated `event_type` table, halt
configured, no collaborator faults. -/
def demoState : State :=
  { instances := [⟨"i1", ⟨"app1", true, "2.0.0", .undefined⟩⟩]
    groups := [⟨"g1", "app1", true, true⟩]
    eventTypes := [(3, 0, 1), (3, 1, 2), (3, 2, 3), (13, 1, 4), (14, 1, 5), (800, 1, 6)]
    events := []
    activities := []
    statsTable := [("g1", ⟨3, 1, 3⟩)]
    now := 10
    disableUpdatesOnFailedRollout := true
    faults := noFaults }

/-- The demo deployment with the Flatcar application id instead. -/
def flatcarState : State :=
  { instances := [⟨"i1", ⟨flatcarAppID, true, "2.0.0", .downloading⟩⟩]
    groups := [⟨"g1", flatcarAppID, true, true⟩]
    eventTypes := [(3, 0, 1), (3, 1, 2), (3, 2, 3), (13, 1, 4), (14, 1, 5), (800, 1, 6)]
    events := []
    activities := []
    statsTable := [("g1", ⟨3, 1, 3⟩)]
    now := 10
    disableUpdatesOnFailedRollout := true
    faults := noFaults }

/-! ### Claim theorems -/

/-- Claim C4: for a known, correctly-bound instance whose application binding
has `UpdateInProgress == false`, RegisterEvent returns
`ErrNoUpdateInProgress` and leaves the whole state unchanged. -/
theorem registerEvent_noUpdateInProgress (s : State)
    (instanceID appID groupID previousVersion errorCode : String)
    (etype eresult : Nat) (inst : Instance)
    (hval : validateApplicationAndGroup s appID groupID = .ok (appID, groupID))
    (hinst : getInstance s instanceID = .ok inst)
    (hbind : inst.application.applicationID = appID)
    (hprog : inst.application.updateInProgress = false) :
    RegisterEvent s instanceID appID groupID etype eresult previousVersion errorCode
      = (s, .error .noUpdateInProgress) := by
  simp [RegisterEvent, hval, hinst, hbind, hprog]

/-- Witness for C4: a concrete stale event on `demoState` with the
update-in-progress flag cleared is dropped with `noUpdateInProgress`. -/
theorem registerEvent_noUpdateInProgress_witness :
    RegisterEvent
        { demoState with instances := [⟨"i1", ⟨"app1", false, "2.0.0", .undefined⟩⟩] }
        "i1" "app1" "g1" 3 1 "1.0.0" ""
      = ({ demoState with instances := [⟨"i1", ⟨"app1", false, "2.0.0", .undefined⟩⟩] },
         .error .noUpdateInProgress) :=
  registerEvent_noUpdateInProgress _ "i1" "app1" "g1" "1.0.0" "" 3 1
    ⟨"i1", ⟨"app1", false, "2.0.0", .undefined⟩⟩ rfl rfl rfl rfl

/-- Claim C9: the five status-writing branch conditions of
triggerEventConsequences are pairwise mutually exclusive over
`(appID, eventType, result)`: at most one of them can hold, so a single
accepted event never drives the instance through two different
statuses. -/
theorem statusBranches_mutually_exclusive (appID : String) (etype result : Nat) :
    (statusBranchConds appID etype result).count true ≤ 1 := by
  unfold statusBranchConds updateCompleteSuccessCond downloadStartedCond
    downloadFinishedCond installedCond failedCond EventUpdateComplete
    EventUpdateDownloadStarted EventUpdateDownloadFinished EventUpdateInstalled
    ResultFailed ResultSuccess ResultSuccessReboot
  by_cases h3 : etype = 3 <;> by_cases h13 : etype = 13 <;>
    by_cases h14 : etype = 14 <;> by_cases h800 : etype = 800 <;>
    by_cases r0 : result = 0 <;> by_cases r1 : result = 1 <;>
    by_cases r2 : result = 2 <;>
    by_cases hb : (appID != flatcarAppID) = true <;>
    simp_all [List.count_cons]

/-- Any member of `setInstanceStatus l iid aid st` whose id and binding
match the written key carries the written status. -/
theorem setInstanceStatus_mem_status (l : List Instance) (iid aid : String)
    (st : InstanceStatus) :
    ∀ i ∈ setInstanceStatus l iid aid st,
      i.id = iid → i.application.applicationID = aid →
      i.application.status = st := by
  intro i hi h1 h2
  simp only [setInstanceStatus, List.mem_map] at hi
  obtain ⟨j, _, rfl⟩ := hi
  by_cases hc : (j.id == iid && j.application.applicationID == aid) = true
  · simp [hc]
  · simp only [hc, if_neg, Bool.not_eq_true] at h1 h2 ⊢
    simp only [Bool.and_eq_true, beq_iff_eq] at hc
    exact absurd ⟨h1, h2⟩ hc

/-- Claim C1: a `Complete/SuccessReboot` event on the Flatcar application with
`previousVersion` empty or `"0.0.0.0"` returns the distinct
`ErrFlatcarEventIgnored` outcome, forces the instance status to
`Undefined`, and changes nothing else: no event row is recorded and no
rollout consequences (group or activity writes) are evaluated. -/
theorem flatcar_stale_reboot_completion_ignored (s : State)
    (instanceID groupID previousVersion errorCode : String) (inst : Instance)
    (hval : validateApplicationAndGroup s flatcarAppID groupID
      = .ok (flatcarAppID, groupID))
    (hinst : getInstance s instanceID = .ok inst)
    (hbind : inst.application.applicationID = flatcarAppID)
    (hprog : inst.application.updateInProgress = true)
    (hprev : previousVersion = "" ∨ previousVersion = "0.0.0.0")
    (hfault : s.faults.statusUpdateFails = false) :
    RegisterEvent s instanceID flatcarAppID groupID EventUpdateComplete
        ResultSuccessReboot previousVersion errorCode
      = ({ s with instances :=
            setInstanceStatus s.instances instanceID flatcarAppID .undefined },
         .error .flatcarEventIgnored) ∧
    ∃ i ∈ setInstanceStatus s.instances instanceID flatcarAppID .undefined,
      i.id = instanceID ∧ i.application.status = .undefined := by
  have hmem : inst ∈ s.instances := by
    unfold getInstance at hinst
    cases hf : s.instances.find? (fun i => i.id == instanceID) with
    | none => rw [hf] at hinst; exact absurd hinst (by simp)
    | some j =>
      rw [hf] at hinst
      obtain rfl : j = inst := by simpa using hinst
      exact List.mem_of_find?_eq_some hf
  have hid : inst.id = instanceID := by
    unfold getInstance at hinst
    cases hf : s.instances.find? (fun i => i.id == instanceID) with
    | none => rw [hf] at hinst; exact absurd hinst (by simp)
    | some j =>
      rw [hf] at hinst
      obtain rfl : j = inst := by simpa using hinst
      have := List.find?_some hf
      simpa using this
  constructor
  · rcases hprev with rfl | rfl <;>
      simp [RegisterEvent, hval, hinst, hbind, hprog, tryUpdateStatus,
        updateInstanceStatus, hfault]
  · refine ⟨{ inst with application := { inst.application with status := .undefined } },
      ?_, by simpa using hid, rfl⟩
    simp only [setInstanceStatus, List.mem_map]
    refine ⟨inst, hmem, ?_⟩
    simp [hid, hbind]

/-- Witness for C1: on the concrete Flatcar deployment, a stale
`Complete/SuccessReboot` report with empty previous version is ignored
and the instance (previously `Downloading`) is reset to `Undefined`. -/
theorem flatcar_stale_reboot_completion_ignored_witness :
    RegisterEvent flatcarState "i1" flatcarAppID "g1" EventUpdateComplete
        ResultSuccessReboot "" "some-code"
      = ({ flatcarState with instances :=
            setInstanceStatus flatcarState.instances "i1" flatcarAppID .undefined },
         .error .flatcarEventIgnored) ∧
    ∃ i ∈ setInstanceStatus flatcarState.instances "i1" flatcarAppID .undefined,
      i.id = "i1" ∧ i.application.status = .undefined :=
  flatcar_stale_reboot_completion_ignored flatcarState "i1" "g1" "" "some-code"
    ⟨"i1", ⟨flatcarAppID, true, "2.0.0", .downloading⟩⟩
    rfl rfl rfl rfl (Or.inl rfl) rfl

/-- Helper: the Boolean guard of the Flatcar special case in
RegisterEvent is false whenever its propositional reading fails. -/
theorem flatcarCond_eq_false {appID previousVersion : String} {etype eresult : Nat}
    (hflat : ¬(appID = flatcarAppID ∧ etype = EventUpdateComplete ∧
      eresult = ResultSuccessReboot ∧
      (previousVersion = "" ∨ previousVersion = "0.0.0.0"))) :
    (appID == flatcarAppID && etype == EventUpdateComplete &&
      eresult == ResultSuccessReboot &&
      (previousVersion == "" || previousVersion == "0.0.0.0")) = false := by
  by_cases h : (appID == flatcarAppID && etype == EventUpdateComplete &&
      eresult == ResultSuccessReboot &&
      (previousVersion == "" || previousVersion == "0.0.0.0")) = true
  · exfalso
    simp only [Bool.and_eq_true, Bool.or_eq_true, beq_iff_eq] at h
    exact hflat ⟨h.1.1.1, h.1.1.2, h.1.2, h.2⟩
  · simp only [Bool.not_eq_true] at h
    exact h

/-- Claim C7: a `(type, result)` pair with no row in the `event_type` table is
rejected with `ErrInvalidEventTypeOrResult` and the state is unchanged;
moreover every validation rejection (`InvalidInstance`,
`InvalidApplicationOrGroup`, `NoUpdateInProgress`,
`InvalidEventTypeOrResult`) leaves the state unchanged: the rejection
happens before any durable write. -/
theorem registerEvent_rejects_unknown_event_pair (s : State)
    (instanceID appID groupID previousVersion errorCode : String)
    (etype eresult : Nat) (inst : Instance)
    (hval : validateApplicationAndGroup s appID groupID = .ok (appID, groupID))
    (hinst : getInstance s instanceID = .ok inst)
    (hbind : inst.application.applicationID = appID)
    (hprog : inst.application.updateInProgress = true)
    (hflat : ¬(appID = flatcarAppID ∧ etype = EventUpdateComplete ∧
      eresult = ResultSuccessReboot ∧
      (previousVersion = "" ∨ previousVersion = "0.0.0.0")))
    (hpair : s.eventTypes.find? (fun t => t.1 == etype && t.2.1 == eresult) = none) :
    RegisterEvent s instanceID appID groupID etype eresult previousVersion errorCode
      = (s, .error .invalidEventTypeOrResult) ∧
    ∀ (s' : State) (i a g p c : String) (t r : Nat),
      ((RegisterEvent s' i a g t r p c).2 = .error .invalidInstance ∨
       (RegisterEvent s' i a g t r p c).2 = .error .invalidApplicationOrGroup ∨
       (RegisterEvent s' i a g t r p c).2 = .error .noUpdateInProgress ∨
       (RegisterEvent s' i a g t r p c).2 = .error .invalidEventTypeOrResult) →
      (RegisterEvent s' i a g t r p c).1 = s' := by
  constructor
  · simp [RegisterEvent, hval, hinst, hbind, hprog, flatcarCond_eq_false hflat,
      lookupEventTypeID, hpair]
  · intro s' i a g p c t r
    cases hv : validateApplicationAndGroup s' a g with
    | error e => simp [RegisterEvent, hv]
    | ok pr =>
      obtain ⟨a', g'⟩ := pr
      cases hi : getInstance s' i with
      | error e => simp [RegisterEvent, hv, hi]
      | ok inst' =>
        by_cases hb : (inst'.application.applicationID != a') = true
        · simp [RegisterEvent, hv, hi, hb]
        · simp only [Bool.not_eq_true] at hb
          by_cases hp : (!inst'.application.updateInProgress) = true
          · simp [RegisterEvent, hv, hi, hb, hp]
          · simp only [Bool.not_eq_true] at hp
            by_cases hf : (a' == flatcarAppID && t == EventUpdateComplete &&
                r == ResultSuccessReboot && (p == "" || p == "0.0.0.0")) = true
            · simp [RegisterEvent, hv, hi, hb, hp, hf]
            · simp only [Bool.not_eq_true] at hf
              cases hl : lookupEventTypeID s' t r with
              | error e => simp [RegisterEvent, hv, hi, hb, hp, hf, hl]
              | ok tid =>
                by_cases hins : s'.faults.insertEventFails = true
                · simp [RegisterEvent, hv, hi, hb, hp, hf, hl, hins]
                · simp only [Bool.not_eq_true] at hins
                  simp [RegisterEvent, hv, hi, hb, hp, hf, hl, hins]

/-- Witness for C7: the pair `(800, 2)` (Installed with SuccessReboot)
has no `event_type` row in `demoState` and is rejected without any
write. -/
theorem registerEvent_rejects_unknown_event_pair_witness :
    RegisterEvent demoState "i1" "app1" "g1" 800 2 "1.0.0" ""
      = (demoState, .error .invalidEventTypeOrResult) ∧
    ∀ (s' : State) (i a g p c : String) (t r : Nat),
      ((RegisterEvent s' i a g t r p c).2 = .error .invalidInstance ∨
       (RegisterEvent s' i a g t r p c).2 = .error .invalidApplicationOrGroup ∨
       (RegisterEvent s' i a g t r p c).2 = .error .noUpdateInProgress ∨
       (RegisterEvent s' i a g t r p c).2 = .error .invalidEventTypeOrResult) →
      (RegisterEvent s' i a g t r p c).1 = s' :=
  registerEvent_rejects_unknown_event_pair demoState "i1" "app1" "g1" "1.0.0" ""
    800 2 ⟨"i1", ⟨"app1", true, "2.0.0", .undefined⟩⟩
    rfl rfl rfl rfl (by decide) rfl

/-- The all-faults-but-insert state used to witness that downstream
errors are swallowed. -/
def faultyState : State :=
  { demoState with faults := ⟨true, false, true, true, true, true, true, true⟩ }

/-- Claim C6: once validation passes and the event row insert succeeds,
RegisterEvent returns success whatever happens during consequence
evaluation: the state `s` is arbitrary, so every combination of group
lookup, stats, status update, group flag and activity failures is
covered, and none is surfaced. -/
theorem registerEvent_ok_once_recorded (s : State)
    (instanceID appID groupID previousVersion errorCode : String)
    (etype eresult : Nat) (inst : Instance) (tid : Nat)
    (hval : validateApplicationAndGroup s appID groupID = .ok (appID, groupID))
    (hinst : getInstance s instanceID = .ok inst)
    (hbind : inst.application.applicationID = appID)
    (hprog : inst.application.updateInProgress = true)
    (hflat : ¬(appID = flatcarAppID ∧ etype = EventUpdateComplete ∧
      eresult = ResultSuccessReboot ∧
      (previousVersion = "" ∨ previousVersion = "0.0.0.0")))
    (hl : lookupEventTypeID s etype eresult = .ok tid)
    (hins : s.faults.insertEventFails = false) :
    (RegisterEvent s instanceID appID groupID etype eresult previousVersion
      errorCode).2 = .ok () := by
  simp [RegisterEvent, hval, hinst, hbind, hprog, flatcarCond_eq_false hflat,
    hl, hins]

/-- Witness for C6: on `faultyState` every collaborator except the event
insert fails, yet the registration of a failure event reports success. -/
theorem registerEvent_ok_once_recorded_witness :
    (RegisterEvent faultyState "i1" "app1" "g1" 3 0 "1.0.0" "oops").2 = .ok () :=
  registerEvent_ok_once_recorded faultyState "i1" "app1" "g1" "1.0.0" "oops"
    3 0 ⟨"i1", ⟨"app1", true, "2.0.0", .undefined⟩⟩ 1
    rfl rfl rfl rfl (by decide) rfl rfl

/-! ### Field preservation of the best-effort store writes -/

@[simp]
theorem tryUpdateStatus_groups (s : State) (i a : String) (st : InstanceStatus) :
    (tryUpdateStatus s i a st).groups = s.groups := by
  cases hf : s.faults.statusUpdateFails <;>
    simp [tryUpdateStatus, updateInstanceStatus, hf]

@[simp]
theorem tryUpdateStatus_activities (s : State) (i a : String) (st : InstanceStatus) :
    (tryUpdateStatus s i a st).activities = s.activities := by
  cases hf : s.faults.statusUpdateFails <;>
    simp [tryUpdateStatus, updateInstanceStatus, hf]

@[simp]
theorem tryUpdateStatus_events (s : State) (i a : String) (st : InstanceStatus) :
    (tryUpdateStatus s i a st).events = s.events := by
  cases hf : s.faults.statusUpdateFails <;>
    simp [tryUpdateStatus, updateInstanceStatus, hf]

@[simp]
theorem tryUpdateStatus_statsTable (s : State) (i a : String) (st : InstanceStatus) :
    (tryUpdateStatus s i a st).statsTable = s.statsTable := by
  cases hf : s.faults.statusUpdateFails <;>
    simp [tryUpdateStatus, updateInstanceStatus, hf]

@[simp]
theorem tryUpdateStatus_faults (s : State) (i a : String) (st : InstanceStatus) :
    (tryUpdateStatus s i a st).faults = s.faults := by
  cases hf : s.faults.statusUpdateFails <;>
    simp [tryUpdateStatus, updateInstanceStatus, hf]

@[simp]
theorem tryUpdateStatus_halt_flag (s : State) (i a : String) (st : InstanceStatus) :
    (tryUpdateStatus s i a st).disableUpdatesOnFailedRollout
      = s.disableUpdatesOnFailedRollout := by
  cases hf : s.faults.statusUpdateFails <;>
    simp [tryUpdateStatus, updateInstanceStatus, hf]

@[simp]
theorem trySetRolloutInProgress_instances (s : State) (g : String) (b : Bool) :
    (trySetRolloutInProgress s g b).instances = s.instances := by
  cases hf : s.faults.setRolloutFails <;>
    simp [trySetRolloutInProgress, setGroupRolloutInProgress, hf]

@[simp]
theorem trySetRolloutInProgress_events (s : State) (g : String) (b : Bool) :
    (trySetRolloutInProgress s g b).events = s.events := by
  cases hf : s.faults.setRolloutFails <;>
    simp [trySetRolloutInProgress, setGroupRolloutInProgress, hf]

@[simp]
theorem trySetRolloutInProgress_activities (s : State) (g : String) (b : Bool) :
    (trySetRolloutInProgress s g b).activities = s.activities := by
  cases hf : s.faults.setRolloutFails <;>
    simp [trySetRolloutInProgress, setGroupRolloutInProgress, hf]

@[simp]
theorem tryGroupActivity_instances (s : State) (cls : ActivityClass)
    (sev : ActivitySeverity) (v a g : String) :
    (tryGroupActivity s cls sev v a g).instances = s.instances := by
  cases hf : s.faults.groupActivityFails <;>
    simp [tryGroupActivity, newGroupActivityEntry, hf]

@[simp]
theorem tryGroupActivity_groups (s : State) (cls : ActivityClass)
    (sev : ActivitySeverity) (v a g : String) :
    (tryGroupActivity s cls sev v a g).groups = s.groups := by
  cases hf : s.faults.groupActivityFails <;>
    simp [tryGroupActivity, newGroupActivityEntry, hf]

@[simp]
theorem tryGroupActivity_events (s : State) (cls : ActivityClass)
    (sev : ActivitySeverity) (v a g : String) :
    (tryGroupActivity s cls sev v a g).events = s.events := by
  cases hf : s.faults.groupActivityFails <;>
    simp [tryGroupActivity, newGroupActivityEntry, hf]

@[simp]
theorem tryInstanceActivity_instances (s : State) (cls : ActivityClass)
    (sev : ActivitySeverity) (v a g i : String) :
    (tryInstanceActivity s cls sev v a g i).instances = s.instances := by
  cases hf : s.faults.instanceActivityFails <;>
    simp [tryInstanceActivity, newInstanceActivityEntry, hf]

@[simp]
theorem tryInstanceActivity_groups (s : State) (cls : ActivityClass)
    (sev : ActivitySeverity) (v a g i : String) :
    (tryInstanceActivity s cls sev v a g i).groups = s.groups := by
  cases hf : s.faults.instanceActivityFails <;>
    simp [tryInstanceActivity, newInstanceActivityEntry, hf]

@[simp]
theorem tryInstanceActivity_events (s : State) (cls : ActivityClass)
    (sev : ActivitySeverity) (v a g i : String) :
    (tryInstanceActivity s cls sev v a g i).events = s.events := by
  cases hf : s.faults.instanceActivityFails <;>
    simp [tryInstanceActivity, newInstanceActivityEntry, hf]

@[simp]
theorem tryInstanceActivity_statsTable (s : State) (cls : ActivityClass)
    (sev : ActivitySeverity) (v a g i : String) :
    (tryInstanceActivity s cls sev v a g i).statsTable = s.statsTable := by
  cases hf : s.faults.instanceActivityFails <;>
    simp [tryInstanceActivity, newInstanceActivityEntry, hf]

@[simp]
theorem tryInstanceActivity_faults (s : State) (cls : ActivityClass)
    (sev : ActivitySeverity) (v a g i : String) :
    (tryInstanceActivity s cls sev v a g i).faults = s.faults := by
  cases hf : s.faults.instanceActivityFails <;>
    simp [tryInstanceActivity, newInstanceActivityEntry, hf]

@[simp]
theorem tryInstanceActivity_halt_flag (s : State) (cls : ActivityClass)
    (sev : ActivitySeverity) (v a g i : String) :
    (tryInstanceActivity s cls sev v a g i).disableUpdatesOnFailedRollout
      = s.disableUpdatesOnFailedRollout := by
  cases hf : s.faults.instanceActivityFails <;>
    simp [tryInstanceActivity, newInstanceActivityEntry, hf]

@[simp]
theorem tryDisableUpdates_instances (s : State) (g : String) :
    (tryDisableUpdates s g).instances = s.instances := by
  cases hf : s.faults.disableUpdatesFails <;>
    simp [tryDisableUpdates, disableUpdates, hf]

@[simp]
theorem tryDisableUpdates_events (s : State) (g : String) :
    (tryDisableUpdates s g).events = s.events := by
  cases hf : s.faults.disableUpdatesFails <;>
    simp [tryDisableUpdates, disableUpdates, hf]

@[simp]
theorem tryDisableUpdates_activities (s : State) (g : String) :
    (tryDisableUpdates s g).activities = s.activities := by
  cases hf : s.faults.disableUpdatesFails <;>
    simp [tryDisableUpdates, disableUpdates, hf]

@[simp]
theorem trySetRolloutInProgress_faults (s : State) (g : String) (b : Bool) :
    (trySetRolloutInProgress s g b).faults = s.faults := by
  cases hf : s.faults.setRolloutFails <;>
    simp [trySetRolloutInProgress, setGroupRolloutInProgress, hf]

@[simp]
theorem tryDisableUpdates_faults (s : State) (g : String) :
    (tryDisableUpdates s g).faults = s.faults := by
  cases hf : s.faults.disableUpdatesFails <;>
    simp [tryDisableUpdates, disableUpdates, hf]

@[simp]
theorem tryGroupActivity_faults (s : State) (cls : ActivityClass)
    (sev : ActivitySeverity) (v a g : String) :
    (tryGroupActivity s cls sev v a g).faults = s.faults := by
  cases hf : s.faults.groupActivityFails <;>
    simp [tryGroupActivity, newGroupActivityEntry, hf]

/-- Claim C5: the success-result asymmetry of the update-complete branch. For
an instance of the Flatcar application, plain `Success` never fires the
complete branch (no status write, no stats read, no group or activity
write: the state is untouched), while `SuccessReboot` drives the
instance to `Complete`; for any other application plain `Success` drives
the instance to `Complete`. -/
theorem updateComplete_success_asymmetry (s : State)
    (instanceID groupID lastVersion : String) (g : Group)
    (hgroup : getGroup s groupID = .ok g)
    (hfault : s.faults.statusUpdateFails = false) :
    triggerEventConsequences s instanceID flatcarAppID groupID lastVersion
        EventUpdateComplete ResultSuccess = (s, .ok ()) ∧
    (triggerEventConsequences s instanceID flatcarAppID groupID lastVersion
        EventUpdateComplete ResultSuccessReboot).1.instances
      = setInstanceStatus s.instances instanceID flatcarAppID .complete ∧
    ∀ appID : String, appID ≠ flatcarAppID →
      (triggerEventConsequences s instanceID appID groupID lastVersion
          EventUpdateComplete ResultSuccess).1.instances
        = setInstanceStatus s.instances instanceID appID .complete := by
  refine ⟨?_, ?_, ?_⟩
  · simp [triggerEventConsequences, hgroup, updateCompleteSuccessCond,
      downloadStartedCond, downloadFinishedCond, installedCond, failedCond,
      EventUpdateComplete, EventUpdateDownloadStarted, EventUpdateDownloadFinished,
      EventUpdateInstalled, ResultSuccess, ResultSuccessReboot, ResultFailed]
  · have hs1 : tryUpdateStatus s instanceID flatcarAppID .complete
        = { s with instances :=
            setInstanceStatus s.instances instanceID flatcarAppID .complete } := by
      simp [tryUpdateStatus, updateInstanceStatus, hfault]
    simp only [triggerEventConsequences, hgroup, updateCompleteSuccessCond,
      downloadStartedCond, downloadFinishedCond, installedCond, failedCond,
      EventUpdateComplete, EventUpdateDownloadStarted, EventUpdateDownloadFinished,
      EventUpdateInstalled, ResultSuccess, ResultSuccessReboot, ResultFailed,
      completeSuccessStep]
    rcases hst : getGroupUpdatesStats (tryUpdateStatus s instanceID flatcarAppID
        .complete) g with e | stats
    · simp [hst, hs1]
    · by_cases hc : stats.updatesToCurrentVersionSucceeded = stats.totalInstances <;>
        simp [hst, hs1, hc]
  · intro appID happ
    have hs1 : tryUpdateStatus s instanceID appID .complete
        = { s with instances :=
            setInstanceStatus s.instances instanceID appID .complete } := by
      simp [tryUpdateStatus, updateInstanceStatus, hfault]
    simp only [triggerEventConsequences, hgroup, updateCompleteSuccessCond,
      downloadStartedCond, downloadFinishedCond, installedCond, failedCond,
      EventUpdateComplete, EventUpdateDownloadStarted, EventUpdateDownloadFinished,
      EventUpdateInstalled, ResultSuccess, ResultSuccessReboot, ResultFailed,
      completeSuccessStep, bne_iff_ne, ne_eq, happ]
    rcases hst : getGroupUpdatesStats (tryUpdateStatus s instanceID appID
        .complete) g with e | stats
    · simp [hst, hs1, happ]
    · by_cases hc : stats.updatesToCurrentVersionSucceeded = stats.totalInstances <;>
        simp [hst, hs1, hc, happ]

/-- Witness for C5: on the Flatcar deployment, plain Success leaves the
state untouched while SuccessReboot completes the instance, and a
non-Flatcar instance completes on plain Success. -/
theorem updateComplete_success_asymmetry_witness :
    triggerEventConsequences flatcarState "i1" flatcarAppID "g1" "2.0.0"
        EventUpdateComplete ResultSuccess = (flatcarState, .ok ()) ∧
    (triggerEventConsequences flatcarState "i1" flatcarAppID "g1" "2.0.0"
        EventUpdateComplete ResultSuccessReboot).1.instances
      = setInstanceStatus flatcarState.instances "i1" flatcarAppID .complete ∧
    ∀ appID : String, appID ≠ flatcarAppID →
      (triggerEventConsequences flatcarState "i1" appID "g1" "2.0.0"
          EventUpdateComplete ResultSuccess).1.instances
        = setInstanceStatus flatcarState.instances "i1" appID .complete :=
  updateComplete_success_asymmetry flatcarState "i1" "g1" "2.0.0"
    ⟨"g1", flatcarAppID, true, true⟩ rfl rfl

/-- Claim C2: an accepted `UpdateComplete` event with an acceptable success
result records the row, sets the instance status to `Complete`,
recomputes the stats, and, whenever
`UpdatesToCurrentVersionSucceeded = TotalInstances` — with no
`TotalInstances > 0` guard, so `stats` may be all zero — clears the
group's `RolloutInProgress` flag and appends the rollout-finished
success activity entry. -/
theorem registerEvent_updateComplete_convergence (s : State)
    (instanceID appID groupID previousVersion errorCode gkey : String)
    (result tid : Nat) (inst : Instance) (g : Group) (stats : UpdatesStats)
    (hval : validateApplicationAndGroup s appID groupID = .ok (appID, groupID))
    (hinst : getInstance s instanceID = .ok inst)
    (hbind : inst.application.applicationID = appID)
    (hprog : inst.application.updateInProgress = true)
    (hres : result = ResultSuccessReboot ∨
      (appID ≠ flatcarAppID ∧ result = ResultSuccess))
    (hprev : previousVersion ≠ "" ∧ previousVersion ≠ "0.0.0.0")
    (hl : lookupEventTypeID s EventUpdateComplete result = .ok tid)
    (hfaults : s.faults = noFaults)
    (hgfind : s.groups.find? (fun g' => g'.id == groupID) = some g)
    (hstats : s.statsTable.find? (fun p => p.1 == g.id) = some (gkey, stats))
    (hsucc : stats.updatesToCurrentVersionSucceeded = stats.totalInstances) :
    RegisterEvent s instanceID appID groupID EventUpdateComplete result
        previousVersion errorCode
      = ({ s with
            events := s.events ++
              [⟨tid, instanceID, appID, previousVersion, errorCode, s.now⟩],
            instances := setInstanceStatus s.instances instanceID appID .complete,
            groups := setRolloutFlag s.groups groupID false,
            activities := s.activities ++
              [⟨.rolloutFinished, .success, inst.application.lastUpdateVersion,
                appID, groupID, none⟩] },
         .ok ()) := by
  have hflat : ¬(appID = flatcarAppID ∧ EventUpdateComplete = EventUpdateComplete ∧
      result = ResultSuccessReboot ∧
      (previousVersion = "" ∨ previousVersion = "0.0.0.0")) := by
    rintro ⟨-, -, -, h | h⟩
    exacts [hprev.1 h, hprev.2 h]
  rcases hres with rfl | ⟨happ, rfl⟩
  · have hig : ¬(appID = flatcarAppID ∧
        (previousVersion = "" ∨ previousVersion = "0.0.0.0")) := by
      rintro ⟨h1, h2⟩
      exact hflat ⟨h1, rfl, rfl, h2⟩
    simp only [EventUpdateComplete, ResultSuccessReboot] at hl
    simp [RegisterEvent, hval, hinst, hbind, hprog, hig, hl, hfaults, noFaults,
      triggerEventConsequences, getGroup, hgfind, completeSuccessStep,
      updateCompleteSuccessCond, downloadStartedCond, downloadFinishedCond,
      installedCond, failedCond, EventUpdateComplete,
      EventUpdateDownloadStarted, EventUpdateDownloadFinished,
      EventUpdateInstalled, ResultSuccess, ResultSuccessReboot, ResultFailed,
      tryUpdateStatus, updateInstanceStatus, getGroupUpdatesStats, hstats, hsucc,
      trySetRolloutInProgress, setGroupRolloutInProgress, tryGroupActivity,
      newGroupActivityEntry]
  · simp only [EventUpdateComplete, ResultSuccess] at hl
    simp [RegisterEvent, hval, hinst, hbind, hprog, happ, hl, hfaults, noFaults,
      triggerEventConsequences, getGroup, hgfind, completeSuccessStep,
      updateCompleteSuccessCond, downloadStartedCond, downloadFinishedCond,
      installedCond, failedCond, EventUpdateComplete,
      EventUpdateDownloadStarted, EventUpdateDownloadFinished,
      EventUpdateInstalled, ResultSuccess, ResultSuccessReboot, ResultFailed,
      tryUpdateStatus, updateInstanceStatus, getGroupUpdatesStats, hstats, hsucc,
      trySetRolloutInProgress, setGroupRolloutInProgress, tryGroupActivity,
      newGroupActivityEntry]

/-- A converged-but-empty deployment: the group has zero instances in
its stats snapshot (`total = attempted = succeeded = 0`). -/
def emptyStatsState : State :=
  { demoState with statsTable := [("g1", ⟨0, 0, 0⟩)] }

/-- Witness for C2: on `emptyStatsState` (zero total instances,
`succeeded == total == 0`) a plain Success completion fires the
convergence consequences: the rollout flag is cleared and the
rollout-finished entry appended. -/
theorem registerEvent_updateComplete_convergence_witness :
    RegisterEvent emptyStatsState "i1" "app1" "g1" EventUpdateComplete
        ResultSuccess "1.0.0" ""
      = ({ emptyStatsState with
            events := emptyStatsState.events ++ [⟨2, "i1", "app1", "1.0.0", "", 10⟩],
            instances := setInstanceStatus emptyStatsState.instances "i1" "app1"
              .complete,
            groups := setRolloutFlag emptyStatsState.groups "g1" false,
            activities := emptyStatsState.activities ++
              [⟨.rolloutFinished, .success, "2.0.0", "app1", "g1", none⟩] },
         .ok ()) :=
  registerEvent_updateComplete_convergence emptyStatsState "i1" "app1" "g1"
    "1.0.0" "" "g1" ResultSuccess 2
    ⟨"i1", ⟨"app1", true, "2.0.0", .undefined⟩⟩ ⟨"g1", "app1", true, true⟩
    ⟨0, 0, 0⟩ rfl rfl rfl rfl (Or.inr ⟨by decide, rfl⟩) ⟨by decide, by decide⟩
    rfl rfl rfl rfl rfl

/-- Claim C3: an accepted event with `Result == Failed` sets the instance
status to `Error` and appends the instance-update-failed activity entry;
with automatic halt configured, the stats are recomputed and exactly
when `UpdatesToCurrentVersionAttempted = 1` the group's updates are
disabled, `RolloutInProgress` is cleared and the rollout-failed entry is
appended — for any other attempted count the groups are untouched and no
group activity entry is added. -/
theorem registerEvent_failed_canary (s : State)
    (instanceID appID groupID previousVersion errorCode gkey : String)
    (etype tid : Nat) (inst : Instance) (g : Group) (stats : UpdatesStats)
    (hval : validateApplicationAndGroup s appID groupID = .ok (appID, groupID))
    (hinst : getInstance s instanceID = .ok inst)
    (hbind : inst.application.applicationID = appID)
    (hprog : inst.application.updateInProgress = true)
    (hl : lookupEventTypeID s etype ResultFailed = .ok tid)
    (hfaults : s.faults = noFaults)
    (hcfg : s.disableUpdatesOnFailedRollout = true)
    (hgfind : s.groups.find? (fun g' => g'.id == groupID) = some g)
    (hstats : s.statsTable.find? (fun p => p.1 == g.id) = some (gkey, stats)) :
    (stats.updatesToCurrentVersionAttempted = 1 →
      RegisterEvent s instanceID appID groupID etype ResultFailed
          previousVersion errorCode
        = ({ s with
              events := s.events ++
                [⟨tid, instanceID, appID, previousVersion, errorCode, s.now⟩],
              instances := setInstanceStatus s.instances instanceID appID .error,
              groups := setRolloutFlag (disableGroupUpdates s.groups groupID)
                groupID false,
              activities := s.activities ++
                [⟨.instanceUpdateFailed, .error, inst.application.lastUpdateVersion,
                  appID, groupID, some instanceID⟩,
                 ⟨.rolloutFailed, .error, inst.application.lastUpdateVersion,
                  appID, groupID, none⟩] },
           .ok ())) ∧
    (stats.updatesToCurrentVersionAttempted ≠ 1 →
      RegisterEvent s instanceID appID groupID etype ResultFailed
          previousVersion errorCode
        = ({ s with
              events := s.events ++
                [⟨tid, instanceID, appID, previousVersion, errorCode, s.now⟩],
              instances := setInstanceStatus s.instances instanceID appID .error,
              activities := s.activities ++
                [⟨.instanceUpdateFailed, .error, inst.application.lastUpdateVersion,
                  appID, groupID, some instanceID⟩] },
           .ok ())) := by
  have hflat : ¬(appID = flatcarAppID ∧ etype = EventUpdateComplete ∧
      ResultFailed = ResultSuccessReboot ∧
      (previousVersion = "" ∨ previousVersion = "0.0.0.0")) := by
    rintro ⟨-, -, h, -⟩
    exact absurd h (by decide)
  simp only [ResultFailed] at hl
  constructor <;> intro hatt <;>
    simp [RegisterEvent, hval, hinst, hbind, hprog, flatcarCond_eq_false hflat,
      hl, hfaults, noFaults, hcfg, triggerEventConsequences, getGroup, hgfind,
      failedStep, updateCompleteSuccessCond, downloadStartedCond,
      downloadFinishedCond, installedCond, failedCond, EventUpdateComplete,
      EventUpdateDownloadStarted, EventUpdateDownloadFinished,
      EventUpdateInstalled, ResultSuccess, ResultSuccessReboot, ResultFailed,
      tryUpdateStatus, updateInstanceStatus, getGroupUpdatesStats, hstats, hatt,
      tryInstanceActivity, newInstanceActivityEntry, tryDisableUpdates,
      disableUpdates, trySetRolloutInProgress, setGroupRolloutInProgress,
      tryGroupActivity, newGroupActivityEntry]

/-- Witness for C3: on `demoState` with halt configured and one
attempted instance, the first failure trips the canary: updates
disabled, rollout cleared, both activity entries appended; with an
attempted count of 2 the same failure leaves the group untouched. -/
theorem registerEvent_failed_canary_witness :
    (RegisterEvent demoState "i1" "app1" "g1" 3 ResultFailed "1.0.0" "err3"
      = ({ demoState with
            events := demoState.events ++ [⟨1, "i1", "app1", "1.0.0", "err3", 10⟩],
            instances := setInstanceStatus demoState.instances "i1" "app1" .error,
            groups := setRolloutFlag (disableGroupUpdates demoState.groups "g1")
              "g1" false,
            activities := demoState.activities ++
              [⟨.instanceUpdateFailed, .error, "2.0.0", "app1", "g1", some "i1"⟩,
               ⟨.rolloutFailed, .error, "2.0.0", "app1", "g1", none⟩] },
         .ok ())) ∧
    ({ demoState with statsTable := [("g1", ⟨3, 2, 0⟩)] } |> fun s2 =>
      RegisterEvent s2 "i1" "app1" "g1" 3 ResultFailed "1.0.0" "err3"
        = ({ s2 with
              events := s2.events ++ [⟨1, "i1", "app1", "1.0.0", "err3", 10⟩],
              instances := setInstanceStatus s2.instances "i1" "app1" .error,
              activities := s2.activities ++
                [⟨.instanceUpdateFailed, .error, "2.0.0", "app1", "g1", some "i1"⟩] },
           .ok ())) :=
  ⟨(registerEvent_failed_canary demoState "i1" "app1" "g1" "1.0.0" "err3" "g1"
      3 1 ⟨"i1", ⟨"app1", true, "2.0.0", .undefined⟩⟩ ⟨"g1", "app1", true, true⟩
      ⟨3, 1, 3⟩ rfl rfl rfl rfl rfl rfl rfl rfl rfl).1 rfl,
   (registerEvent_failed_canary { demoState with statsTable := [("g1", ⟨3, 2, 0⟩)] }
      "i1" "app1" "g1" "1.0.0" "err3" "g1"
      3 1 ⟨"i1", ⟨"app1", true, "2.0.0", .undefined⟩⟩ ⟨"g1", "app1", true, true⟩
      ⟨3, 2, 0⟩ rfl rfl rfl rfl rfl rfl rfl rfl rfl).2 (by decide)⟩

/-! ### The consequence pipeline never touches the event store -/

/-- The update-complete success branch leaves the event rows as they
were. -/
theorem completeSuccessStep_events (s : State) (grp : Group) (i a g v : String) :
    (completeSuccessStep s grp i a g v).1.events = s.events := by
  simp only [completeSuccessStep]
  rcases hst : getGroupUpdatesStats (tryUpdateStatus s i a .complete) grp with e | stats
  · simp [hst]
  · by_cases hc : stats.updatesToCurrentVersionSucceeded = stats.totalInstances <;>
      simp [hst, hc]

/-- The failure branch leaves the event rows as they were. -/
theorem failedStep_events (s : State) (grp : Group) (i a g v : String) :
    (failedStep s grp i a g v).1.events = s.events := by
  simp only [failedStep]
  cases hcfg : (tryInstanceActivity (tryUpdateStatus s i a .error)
      .instanceUpdateFailed .error v a g i).disableUpdatesOnFailedRollout with
  | false => simp [hcfg]
  | true =>
    simp only [hcfg, if_true]
    rcases hst : getGroupUpdatesStats (tryInstanceActivity
        (tryUpdateStatus s i a .error) .instanceUpdateFailed .error v a g i)
        grp with e | stats
    · simp [hst]
    · by_cases hatt : stats.updatesToCurrentVersionAttempted = 1 <;>
        simp [hst, hatt]

/-- A conditionally applied best-effort status write leaves the event
rows as they were. -/
theorem ite_tryUpdateStatus_events (c : Prop) [Decidable c] (x : State)
    (i a : String) (st : InstanceStatus) :
    (if c then tryUpdateStatus x i a st else x).events = x.events := by
  split <;> simp

/-- triggerEventConsequences only writes instance, group and activity
state: the recorded event rows are untouched. -/
theorem triggerEventConsequences_events (s : State) (i a g v : String)
    (t r : Nat) :
    (triggerEventConsequences s i a g v t r).1.events = s.events := by
  simp only [triggerEventConsequences]
  cases hg : getGroup s g with
  | error e => rfl
  | ok grp =>
    dsimp only
    rcases hstep : (if updateCompleteSuccessCond a t r = true then
        completeSuccessStep s grp i a g v else (s, Except.ok ())) with ⟨s1, e1⟩
    have hs1 : s1.events = s.events := by
      by_cases h1 : updateCompleteSuccessCond a t r = true
      · rw [if_pos h1] at hstep
        have h2 := completeSuccessStep_events s grp i a g v
        rw [hstep] at h2
        exact h2
      · rw [if_neg h1] at hstep
        injection hstep with h2 h3
        rw [← h2]
    cases e1 with
    | error err => exact hs1
    | ok u =>
      dsimp only
      by_cases hf : failedCond r = true
      · rw [if_pos hf, failedStep_events]
        simp only [ite_tryUpdateStatus_events, hs1]
      · rw [if_neg hf]
        simp only [ite_tryUpdateStatus_events, hs1]

/-! ### The latest-event fold -/

/-- Folding `betterEvent` over a list ending in a strictly newest row
yields that row. -/
theorem foldl_better_last (l : List EventRow) (e : EventRow)
    (acc : Option EventRow)
    (hl : ∀ x ∈ l, x.createdTs < e.createdTs)
    (hacc : ∀ b, acc = some b → b.createdTs < e.createdTs) :
    List.foldl betterEvent acc (l ++ [e]) = some e := by
  induction l generalizing acc with
  | nil =>
    simp only [List.nil_append, List.foldl_cons, List.foldl_nil]
    cases acc with
    | none => rfl
    | some b => simp [betterEvent, hacc b rfl]
  | cons x xs ih =>
    simp only [List.cons_append, List.foldl_cons]
    apply ih
    · intro y hy
      exact hl y (List.mem_cons_of_mem _ hy)
    · intro b hb
      cases acc with
      | none =>
        simp only [betterEvent, Option.some.injEq] at hb
        rw [← hb]
        exact hl x (List.mem_cons_self _ _)
      | some c =>
        simp only [betterEvent] at hb
        split at hb
        · simp only [Option.some.injEq] at hb
          rw [← hb]
          exact hl x (List.mem_cons_self _ _)
        · simp only [Option.some.injEq] at hb
          rw [← hb]
          exact hacc c rfl

/-- The row produced by the `betterEvent` fold comes from the list or is
the accumulator. -/
theorem foldl_better_mem (l : List EventRow) (acc : Option EventRow)
    (e : EventRow) (h : List.foldl betterEvent acc l = some e) :
    e ∈ l ∨ acc = some e := by
  induction l generalizing acc with
  | nil => exact Or.inr h
  | cons x xs ih =>
    simp only [List.foldl_cons] at h
    rcases ih (betterEvent acc x) h with hm | hacc
    · exact Or.inl (List.mem_cons_of_mem _ hm)
    · cases acc with
      | none =>
        simp only [betterEvent, Option.some.injEq] at hacc
        exact Or.inl (hacc ▸ List.mem_cons_self _ _)
      | some c =>
        simp only [betterEvent] at hacc
        split at hacc
        · simp only [Option.some.injEq] at hacc
          exact Or.inl (hacc ▸ List.mem_cons_self _ _)
        · exact Or.inr hacc

/-- The row produced by the `betterEvent` fold has the greatest creation
timestamp among the list and the accumulator. -/
theorem foldl_better_ge (l : List EventRow) (acc : Option EventRow)
    (e : EventRow) (h : List.foldl betterEvent acc l = some e) :
    (∀ x ∈ l, x.createdTs ≤ e.createdTs) ∧
    (∀ b, acc = some b → b.createdTs ≤ e.createdTs) := by
  induction l generalizing acc with
  | nil =>
    refine ⟨by simp, fun b hb => ?_⟩
    simp only [List.foldl_nil] at h
    rw [hb] at h
    simp only [Option.some.injEq] at h
    rw [h]
  | cons x xs ih =>
    simp only [List.foldl_cons] at h
    obtain ⟨hxs, hacc'⟩ := ih (betterEvent acc x) h
    have hx : x.createdTs ≤ e.createdTs := by
      cases acc with
      | none => exact hacc' x rfl
      | some c =>
        simp only [betterEvent] at hacc'
        by_cases hlt : c.createdTs < x.createdTs
        · exact hacc' x (by simp [hlt])
        · have hcx := hacc' c (by simp [hlt])
          exact le_trans (le_of_not_lt hlt) hcx
    refine ⟨fun y hy => ?_, fun b hb => ?_⟩
    · rcases List.mem_cons.mp hy with rfl | hy'
      · exact hx
      · exact hxs y hy'
    · cases acc with
      | none => simp at hb
      | some c =>
        obtain rfl : c = b := by simpa using hb
        simp only [betterEvent] at hacc'
        by_cases hlt : c.createdTs < x.createdTs
        · exact le_trans (le_of_lt hlt) (hacc' x (by simp [hlt]))
        · exact hacc' c (by simp [hlt])

/-- Claim C8: round-trip. An event accepted and recorded by RegisterEvent,
queried back with the same instance and application at any timestamp at
or after its creation time — with every other matching event strictly
older — returns exactly the `errorCode` supplied at registration. -/
theorem registerEvent_getEvent_roundtrip (s : State)
    (instanceID appID groupID previousVersion errorCode : String)
    (etype eresult tid ts : Nat) (inst : Instance)
    (hval : validateApplicationAndGroup s appID groupID = .ok (appID, groupID))
    (hinst : getInstance s instanceID = .ok inst)
    (hbind : inst.application.applicationID = appID)
    (hprog : inst.application.updateInProgress = true)
    (hflat : ¬(appID = flatcarAppID ∧ etype = EventUpdateComplete ∧
      eresult = ResultSuccessReboot ∧
      (previousVersion = "" ∨ previousVersion = "0.0.0.0")))
    (hl : lookupEventTypeID s etype eresult = .ok tid)
    (hins : s.faults.insertEventFails = false)
    (hts : s.now ≤ ts)
    (hold : ∀ e ∈ s.events, e.instanceID = instanceID →
      e.applicationID = appID → e.createdTs ≤ ts → e.createdTs < s.now) :
    GetEvent (RegisterEvent s instanceID appID groupID etype eresult
      previousVersion errorCode).1 instanceID appID ts = .ok errorCode := by
  have hev : (RegisterEvent s instanceID appID groupID etype eresult
      previousVersion errorCode).1.events
      = s.events ++ [⟨tid, instanceID, appID, previousVersion, errorCode, s.now⟩] := by
    simp [RegisterEvent, hval, hinst, hbind, hprog, flatcarCond_eq_false hflat,
      hl, hins, triggerEventConsequences_events]
  unfold GetEvent latestEvent
  rw [hev, List.filter_append]
  have hfil : List.filter (matchesQuery instanceID appID ts)
      [⟨tid, instanceID, appID, previousVersion, errorCode, s.now⟩]
      = [⟨tid, instanceID, appID, previousVersion, errorCode, s.now⟩] := by
    simp [matchesQuery, hts]
  rw [hfil]
  have hlast : List.foldl betterEvent none
      (List.filter (matchesQuery instanceID appID ts) s.events ++
        [⟨tid, instanceID, appID, previousVersion, errorCode, s.now⟩])
      = some ⟨tid, instanceID, appID, previousVersion, errorCode, s.now⟩ := by
    apply foldl_better_last
    · intro x hx
      obtain ⟨hxm, hxq⟩ := List.mem_filter.mp hx
      simp only [matchesQuery, Bool.and_eq_true, beq_iff_eq,
        decide_eq_true_eq] at hxq
      exact hold x hxm hxq.1.1 hxq.1.2 hxq.2
    · intro b hb
      simp at hb
  rw [hlast]

/-- The demo deployment with one older recorded event for `i1`. -/
def c8State : State :=
  { demoState with events := [⟨2, "i1", "app1", "0.9.0", "old-code", 4⟩] }

/-- Witness for C8: registering a success event with error code
`new-code` over an older recorded row and querying at timestamp 12
returns `new-code`. -/
theorem registerEvent_getEvent_roundtrip_witness :
    GetEvent (RegisterEvent c8State "i1" "app1" "g1" 3 1 "1.0.0"
      "new-code").1 "i1" "app1" 12 = .ok "new-code" :=
  registerEvent_getEvent_roundtrip c8State "i1" "app1" "g1" "1.0.0" "new-code"
    3 1 2 12 ⟨"i1", ⟨"app1", true, "2.0.0", .undefined⟩⟩
    rfl rfl rfl rfl (by decide) rfl rfl (by decide) (by decide)

/-- Claim C10: GetEvent returns the error code of an event for the given
instance and application, created at or before the queried timestamp,
whose creation time is greatest among all such events; when no event
matches, it returns an error instead of a code. -/
theorem getEvent_latest_spec (s : State) (i a : String) (ts : Nat) :
    (∀ c, GetEvent s i a ts = .ok c →
      ∃ e, e ∈ s.events ∧ matchesQuery i a ts e = true ∧ e.errorCode = c ∧
        ∀ e2 ∈ s.events, matchesQuery i a ts e2 = true →
          e2.createdTs ≤ e.createdTs) ∧
    ((∀ e ∈ s.events, matchesQuery i a ts e = false) →
      GetEvent s i a ts = .error ()) := by
  constructor
  · intro c hc
    unfold GetEvent latestEvent at hc
    rcases hl : List.foldl betterEvent none
        (List.filter (matchesQuery i a ts) s.events) with _ | e
    · rw [hl] at hc
      simp at hc
    · rw [hl] at hc
      simp only [Except.ok.injEq] at hc
      rcases foldl_better_mem _ _ _ hl with hm | habs
      · obtain ⟨hmem, hq⟩ := List.mem_filter.mp hm
        refine ⟨e, hmem, hq, hc, ?_⟩
        intro e2 he2 hq2
        exact (foldl_better_ge _ _ _ hl).1 e2 (List.mem_filter.mpr ⟨he2, hq2⟩)
      · simp at habs
  · intro hall
    have hnil : List.filter (matchesQuery i a ts) s.events = [] := by
      rw [List.filter_eq_nil_iff]
      intro e he
      simp [hall e he]
    unfold GetEvent latestEvent
    rw [hnil]
    rfl

/-- The demo deployment with two recorded events for `i1` at timestamps
3 and 7. -/
def rtState : State :=
  { demoState with events :=
      [⟨2, "i1", "app1", "0.9.0", "a", 3⟩, ⟨2, "i1", "app1", "1.0.0", "b", 7⟩] }

/-- Witness for C10: on `rtState` the query at timestamp 10 returns
code `b`, the code of the later (timestamp 7) matching event. -/
theorem getEvent_latest_spec_witness :
    ∃ e, e ∈ rtState.events ∧ matchesQuery "i1" "app1" 10 e = true ∧
      e.errorCode = "b" ∧
      ∀ e2 ∈ rtState.events, matchesQuery "i1" "app1" 10 e2 = true →
        e2.createdTs ≤ e.createdTs :=
  (getEvent_latest_spec rtState "i1" "app1" 10).1 "b" rfl

end Nebraska
